import Mathlib

/-!
# RapidMoc orchestration (`rapidmoc/rapidmoc.py`): a shallow embedding

This file embeds the top-level pipeline module of RapidMoc.  The module
parses command-line arguments, reads an INI configuration, applies the
`--name`/`--outdir` overrides, loads four zonal sections, interpolates
temperature and salinity onto the velocity grid, computes transports,
optionally loads observations and plots diagnostics, and finally prints
the output path and closes the transport object.

The functions of the other modules (`sections`, `transports`,
`observations`, `plotdiag`) are not part of the embedded file; they are
modelled as an abstract environment of functions that may fail
(`Except`).  Per the specification these collaborators are pure apart
from their own I/O: they receive the configuration read-only and return
new objects, so they are modelled as Lean functions (which cannot mutate
their arguments).

Every call the pipeline makes to a collaborator is recorded in a trace
of events, so control-flow claims (ordering, conditional execution,
propagation of failure) are statements about the trace and the final
`Except` result.
-/

namespace RapidMoc

/-! ## Python `configparser` model

`ConfigParser` is modelled by its `DEFAULT` option list plus an
association list of sections.  The behaviours embedded here were checked
against CPython:
* `has_option sec opt` is `false` when the section is missing, and
  otherwise tests membership in the section or in `DEFAULT`;
* `get` raises `NoSectionError` for a missing section and
  `NoOptionError` for a missing option (after `DEFAULT` fallback);
* `set` raises `NoSectionError` for a missing section and otherwise
  replaces or appends the option in that section;
* `getboolean` parses `1/yes/true/on` and `0/no/false/off`
  (case-insensitively) and raises `ValueError` otherwise.

Option-name normalisation (`optionxform` lowercases keys) is omitted:
every option name occurring in the embedded module is a lowercase
literal. -/

/-- Python exceptions that the embedded module can raise or propagate. -/
inductive PyError where
  | noSectionError (sec : String)
  | noOptionError (sec opt : String)
  | valueError (msg : String)
  /-- Any exception raised inside an external collaborator
  (`DataLoadError`, `InterpolationError`, plotting failures, ...). -/
  | stageError (msg : String)
  deriving Repr, DecidableEq

/-- Decidable equality of `Except` results, for concrete evaluations. -/
instance instDecEqExcept {ε α : Type} [DecidableEq ε] [DecidableEq α] :
    DecidableEq (Except ε α) := fun x y =>
  match x, y with
  | .ok a, .ok b =>
      match decEq a b with
      | isTrue h => isTrue (by rw [h])
      | isFalse h => isFalse (fun hh => by cases hh; exact h rfl)
  | .error a, .error b =>
      match decEq a b with
      | isTrue h => isTrue (by rw [h])
      | isFalse h => isFalse (fun hh => by cases hh; exact h rfl)
  | .ok _, .error _ => isFalse (fun hh => by cases hh)
  | .error _, .ok _ => isFalse (fun hh => by cases hh)

/-- A parsed INI configuration: the `DEFAULT` options and the named
sections, each an association list of options. -/
structure Config where
  defaults : List (String × String)
  sections : List (String × List (String × String))
  deriving Repr, DecidableEq

/-- Option lookup with `DEFAULT` fallback inside an existing section. -/
def Config.lookupOpt (c : Config) (opts : List (String × String))
    (opt : String) : Option String :=
  match opts.lookup opt with
  | some v => some v
  | none => c.defaults.lookup opt

/-- `ConfigParser.has_option`: `false` when the section is missing,
membership (with `DEFAULT` fallback) otherwise. -/
def Config.has_option (c : Config) (sec opt : String) : Bool :=
  if sec = "DEFAULT" then (c.defaults.lookup opt).isSome
  else
    match c.sections.lookup sec with
    | none => false
    | some opts => (c.lookupOpt opts opt).isSome

/-- `ConfigParser.get`: `NoSectionError` for a missing section,
`NoOptionError` for a missing option. -/
def Config.get (c : Config) (sec opt : String) : Except PyError String :=
  if sec = "DEFAULT" then
    match c.defaults.lookup opt with
    | some v => .ok v
    | none => .error (.noOptionError sec opt)
  else
    match c.sections.lookup sec with
    | none => .error (.noSectionError sec)
    | some opts =>
        match c.lookupOpt opts opt with
        | some v => .ok v
        | none => .error (.noOptionError sec opt)

/-- Replace the value of `opt` in an option list, or append it. -/
def setOptList (opts : List (String × String)) (opt v : String) :
    List (String × String) :=
  if (opts.lookup opt).isSome then
    opts.map (fun p => if p.1 = opt then (p.1, v) else p)
  else opts ++ [(opt, v)]

/-- `ConfigParser.set`: `NoSectionError` for a missing section, else
replace/append the option in that section. -/
def Config.set (c : Config) (sec opt v : String) : Except PyError Config :=
  if sec = "DEFAULT" then
    .ok { c with defaults := setOptList c.defaults opt v }
  else
    match c.sections.lookup sec with
    | none => .error (.noSectionError sec)
    | some _ =>
        .ok { c with
          sections :=
            c.sections.map
              (fun p => if p.1 = sec then (p.1, setOptList p.2 opt v) else p) }

/-- Python `str.lower()` (ASCII case suffices for the boolean states). -/
def pyLower (s : String) : String := ⟨s.data.map Char.toLower⟩

/-- `ConfigParser.BOOLEAN_STATES`, applied to the lowercased value. -/
def parseBool (v : String) : Except PyError Bool :=
  let w := pyLower v
  if w = "1" ∨ w = "yes" ∨ w = "true" ∨ w = "on" then .ok true
  else if w = "0" ∨ w = "no" ∨ w = "false" ∨ w = "off" then .ok false
  else .error (.valueError v)

/-- `ConfigParser.getboolean`: `get` then boolean conversion. -/
def Config.getboolean (c : Config) (sec opt : String) : Except PyError Bool :=
  match c.get sec opt with
  | .error e => .error e
  | .ok v => parseBool v

/-! ## `get_config_opt` (rapidmoc.py, lines 62–67) -/

/-- `get_config_opt(config, section, option)`: return the option if it
exists, else `None`.  (`has_option` never raises, so neither does this.) -/
def get_config_opt (config : Config) (sec opt : String) : Option String :=
  if config.has_option sec opt then
    match config.get sec opt with
    | .ok v => some v
    | .error _ => none
  else none

/-! ## Events, external environment, and the trace monad

The pipeline's calls to the external modules are recorded as events.
`Sec`, `Trans` and `Obs` are the (abstract) types of `ZonalSections`
objects, of the transports object and of observation objects. -/

/-- The four observation kinds of `call_plotdiag`. -/
inductive ObsKind where
  | heat_transports
  | florida_current
  | volume_transports
  | streamfunctions
  deriving Repr, DecidableEq

/-- One external call made by the pipeline, with the arguments passed. -/
inductive Event (S T O : Type) where
  /-- `sections.ZonalSections(file, config, field)`. -/
  | loadSection (file : String) (config : Config) (field : String)
  /-- `sections.interpolate(src, tgt)`. -/
  | interpolateCall (src tgt : S)
  /-- `transports.calc_transports_from_sections(config, v, tau, t_on_v, s_on_v)`. -/
  | calcTransports (config : Config) (v tau t s : S)
  /-- One of the four `observations.*Obs(file, time_avg=...)` constructors. -/
  | loadObs (kind : ObsKind) (file : String) (time_avg : Option String)
  /-- `plotdiag.plot_diagnostics(trans, name, outdir, date_format, obs_vol, obs_fc, obs_oht, obs_sf)`. -/
  | plotDiag (trans : T) (name outdir date_format : String)
      (obs_vol obs_fc obs_oht obs_sf : Option O)
  /-- `print(msg)`. -/
  | stdout (msg : String)
  /-- `trans.close()`. -/
  | closeCall (trans : T)
  deriving Repr, DecidableEq

/-- The external collaborators (other modules of the repository, not part
of the embedded file): each may raise, modelled by `Except`. -/
structure Env (S T O : Type) where
  zonal_sections : String → Config → String → Except PyError S
  interpolate : S → S → Except PyError S
  calc_transports_from_sections :
    Config → S → S → S → S → Except PyError T
  heat_transport_obs : String → Option String → Except PyError O
  florida_current_obs : String → Option String → Except PyError O
  stream_function_obs : String → Option String → Except PyError O
  volume_transport_obs : String → Option String → Except PyError O
  plot_diagnostics : T → String → String → String →
    Option O → Option O → Option O → Option O → Except PyError Unit
  filepath : T → String
  close : T → Except PyError Unit

/-- A computation of the pipeline: its result (or the first uncaught
exception) together with the trace of external calls it made before
returning or raising. -/
abbrev TraceM (S T O : Type) (α : Type) :=
  Except PyError α × List (Event S T O)

variable {S T O : Type}

/-- Sequencing: an exception short-circuits, traces concatenate. -/
def tbind (x : TraceM S T O α) (f : α → TraceM S T O β) :
    TraceM S T O β :=
  match x with
  | (.error e, tr) => (.error e, tr)
  | (.ok a, tr) => ((f a).1, tr ++ (f a).2)

instance : Monad (TraceM S T O) where
  pure a := (.ok a, [])
  bind := tbind

/-- Run a computation that makes no external call. -/
def tlift (x : Except PyError α) : TraceM S T O α := (x, [])

/-- Record an external call and its outcome. -/
def callExt (ev : Event S T O) (x : Except PyError α) :
    TraceM S T O α := (x, [ev])

/-! ## `call_plotdiag` (rapidmoc.py, lines 70–103) -/

/-- One `if obs_xxx_f is not None: obs_xxx = observations.XxxObs(obs_xxx_f,
time_avg=time_avg)` block of `call_plotdiag`. -/
def loadObsIf (kind : ObsKind)
    (loader : String → Option String → Except PyError O)
    (fileOpt : Option String) (time_avg : Option String) :
    TraceM S T O (Option O) :=
  match fileOpt with
  | none => pure none
  | some f => do
      let o ← callExt (.loadObs kind f time_avg) (loader f time_avg)
      pure (some o)

/-- `call_plotdiag(config, trans)`: read the observation options, load the
configured observations (in source order: heat transports, Florida
Current, streamfunctions, volume transports), read the output options,
and call `plotdiag.plot_diagnostics`. -/
def call_plotdiag (env : Env S T O) (config : Config) (trans : T) :
    TraceM S T O Unit := do
  let time_avg := get_config_opt config "observations" "time_avg"
  let obs_sf_f := get_config_opt config "observations" "streamfunctions"
  let obs_fc_f := get_config_opt config "observations" "florida_current"
  let obs_vol_f := get_config_opt config "observations" "volume_transports"
  let obs_oht_f := get_config_opt config "observations" "heat_transports"
  let obs_oht ← loadObsIf .heat_transports env.heat_transport_obs obs_oht_f time_avg
  let obs_fc ← loadObsIf .florida_current env.florida_current_obs obs_fc_f time_avg
  let obs_sf ← loadObsIf .streamfunctions env.stream_function_obs obs_sf_f time_avg
  let obs_vol ← loadObsIf .volume_transports env.volume_transport_obs obs_vol_f time_avg
  let outdir ← tlift (config.get "output" "outdir")
  let date_format ← tlift (config.get "output" "date_format")
  let name ← tlift (config.get "output" "name")
  callExt (.plotDiag trans name outdir date_format obs_vol obs_fc obs_oht obs_sf)
    (env.plot_diagnostics trans name outdir date_format obs_vol obs_fc obs_oht obs_sf)

/-! ## `main` (rapidmoc.py, lines 106–139) -/

/-- Command-line arguments (`get_args`): four data paths, the config
path, and the optional `--name`/`--outdir` overrides (default `None`). -/
structure Args where
  config_file : String
  tfile : String
  sfile : String
  taufile : String
  vfile : String
  name : Option String
  outdir : Option String
  deriving Repr, DecidableEq

/-- The two override blocks at the start of `main`: `config.set('output',
'name', args.name)` when `--name` was given, then likewise for
`outdir`. -/
def applyOverrides (args : Args) (config0 : Config) : Except PyError Config := do
  let config1 ←
    match args.name with
    | some n => config0.set "output" "name" n
    | none => pure config0
  match args.outdir with
  | some d => config1.set "output" "outdir" d
  | none => pure config1

/-- `main()` after argument parsing and config reading: `args` is the
parsed command line and `config0` the configuration read from
`args.config_file` (both produced by external I/O). -/
def main (env : Env S T O) (args : Args) (config0 : Config) :
    TraceM S T O Unit := do
  let config ← tlift (applyOverrides args config0)
  let t ← callExt (.loadSection args.tfile config "temperature")
      (env.zonal_sections args.tfile config "temperature")
  let s ← callExt (.loadSection args.sfile config "salinity")
      (env.zonal_sections args.sfile config "salinity")
  let tau ← callExt (.loadSection args.taufile config "taux")
      (env.zonal_sections args.taufile config "taux")
  let v ← callExt (.loadSection args.vfile config "meridional_velocity")
      (env.zonal_sections args.vfile config "meridional_velocity")
  let t_on_v ← callExt (.interpolateCall t v) (env.interpolate t v)
  let s_on_v ← callExt (.interpolateCall s v) (env.interpolate s v)
  let trans ← callExt (.calcTransports config v tau t_on_v s_on_v)
      (env.calc_transports_from_sections config v tau t_on_v s_on_v)
  let plot ← tlift (config.getboolean "output" "plot")
  if plot then call_plotdiag env config trans else pure ()
  callExt (.stdout ("SAVING: " ++ env.filepath trans)) (.ok ())
  callExt (.closeCall trans) (env.close trans)

/-- The part of `main` after the transports object has been produced:
the `output.plot` check, the optional diagnostics call, the `SAVING`
message and the `close()` call. -/
def mainTail (env : Env S T O) (config : Config) (trans : T) :
    TraceM S T O Unit := do
  let plot ← tlift (config.getboolean "output" "plot")
  if plot then call_plotdiag env config trans else pure ()
  callExt (.stdout ("SAVING: " ++ env.filepath trans)) (.ok ())
  callExt (.closeCall trans) (env.close trans)

/-- The seven external calls of the pipeline proper, in program order. -/
def stageCalls (args : Args) (config : Config)
    (t s tau v t_on_v s_on_v : S) : List (Event S T O) :=
  [.loadSection args.tfile config "temperature",
   .loadSection args.sfile config "salinity",
   .loadSection args.taufile config "taux",
   .loadSection args.vfile config "meridional_velocity",
   .interpolateCall t v,
   .interpolateCall s v,
   .calcTransports config v tau t_on_v s_on_v]

/-! ## Event classifiers -/

/-- Does the event carry the configuration object (section loading and
transport computation do)? -/
def Event.configOf : Event S T O → Option Config
  | .loadSection _ c _ => some c
  | .calcTransports c _ _ _ _ => some c
  | _ => none

/-- Is the event an observation-loading call? -/
def Event.isLoadObs : Event S T O → Bool
  | .loadObs _ _ _ => true
  | _ => false

/-- Is the event the diagnostics-plotting call? -/
def Event.isPlotDiag : Event S T O → Bool
  | .plotDiag _ _ _ _ _ _ _ _ => true
  | _ => false

/-- Is the event the `close()` call on the transports object? -/
def Event.isClose : Event S T O → Bool
  | .closeCall _ => true
  | _ => false

/-- Is the event the transport computation call? -/
def Event.isCalc : Event S T O → Bool
  | .calcTransports _ _ _ _ _ => true
  | _ => false

/-- Events of the reporting phase: observation loading, plotting, the
`SAVING` message and the `close()` call. -/
def Event.isReporting : Event S T O → Bool
  | .loadObs _ _ _ => true
  | .plotDiag _ _ _ _ _ _ _ _ => true
  | .stdout _ => true
  | .closeCall _ => true
  | _ => false

/-! ## Sample data for concrete evaluations -/

/-- A sample configuration: `output` fully populated with `plot` true,
and an `observations` section configuring a time average and the heat
transports file. -/
def cfgA : Config :=
  ⟨[], [("output",
          [("name", "run1"), ("outdir", "/data/out"),
           ("date_format", "y_m_d"), ("plot", "True")]),
        ("observations",
          [("time_avg", "monthly"), ("heat_transports", "oht.nc")])]⟩

/-- A sample configuration with `output.plot` false and no
`observations` section at all. -/
def cfgB : Config :=
  ⟨[], [("output",
          [("name", "run1"), ("outdir", "/data/out"),
           ("date_format", "y_m_d"), ("plot", "no")])]⟩

/-- A sample command line without overrides. -/
def argsA : Args :=
  ⟨"cfg.ini", "t.nc", "s.nc", "tau.nc", "v.nc", none, none⟩

/-- A sample command line with both `--name` and `--outdir`. -/
def argsB : Args :=
  ⟨"cfg.ini", "t.nc", "s.nc", "tau.nc", "v.nc", some "cli_name", some "/cli/out"⟩

/-- An environment (over string data) in which every external call
succeeds. -/
def okEnv : Env String String String where
  zonal_sections := fun _ _ field => .ok field
  interpolate := fun src tgt => .ok (src ++ "@" ++ tgt)
  calc_transports_from_sections := fun _ _ _ _ _ => .ok "trans"
  heat_transport_obs := fun f _ => .ok ("oht:" ++ f)
  florida_current_obs := fun f _ => .ok ("fc:" ++ f)
  stream_function_obs := fun f _ => .ok ("sf:" ++ f)
  volume_transport_obs := fun f _ => .ok ("vol:" ++ f)
  plot_diagnostics := fun _ _ _ _ _ _ _ _ => .ok ()
  filepath := fun tr => tr ++ ".nc"
  close := fun _ => .ok ()

/-- Like `okEnv`, but loading the temperature section raises a
`DataLoadError`. -/
def failTempEnv : Env String String String :=
  { okEnv with
    zonal_sections := fun _ _ field =>
      if field = "temperature" then .error (.stageError "DataLoadError")
      else .ok field }

/-- Like `okEnv`, but the plotting call raises. -/
def badPlotEnv : Env String String String :=
  { okEnv with
    plot_diagnostics := fun _ _ _ _ _ _ _ _ =>
      .error (.stageError "PlotFailure") }

/-- Like `okEnv`, but the transport computation raises. -/
def failCalcEnv : Env String String String :=
  { okEnv with
    calc_transports_from_sections := fun _ _ _ _ _ =>
      .error (.stageError "ComputationError") }

/-! ## Basic computation lemmas for the trace monad -/

theorem bind_eq_tbind (x : TraceM S T O α)
    (f : α → TraceM S T O β) : x >>= f = tbind x f := rfl

theorem pure_eq (a : α) :
    (pure a : TraceM S T O α) = (Except.ok a, []) := rfl

@[simp] theorem tbind_mk_error (e : PyError)
    (tr : List (Event S T O)) (f : α → TraceM S T O β) :
    tbind (Except.error e, tr) f = (Except.error e, tr) := rfl

@[simp] theorem tbind_mk_ok (a : α) (tr : List (Event S T O))
    (f : α → TraceM S T O β) :
    tbind (Except.ok a, tr) f = ((f a).1, tr ++ (f a).2) := rfl

/-- A property of events holding on both sides of a sequencing holds on
the trace of the whole. -/
theorem tbind_forall {P : Event S T O → Prop}
    {x : TraceM S T O α} {f : α → TraceM S T O β}
    (hx : ∀ e ∈ x.2, P e) (hf : ∀ a, ∀ e ∈ (f a).2, P e) :
    ∀ e ∈ (tbind x f).2, P e := by
  obtain ⟨r, tr⟩ := x
  cases r with
  | error e => simpa using hx
  | ok a =>
      intro e he
      rcases List.mem_append.1 (by simpa [tbind] using he) with h | h
      · exact hx e h
      · exact hf a e h

/-! ## Characterisation of the pipeline runs -/

/-- When the seven pipeline stages all succeed, `main` performs exactly
the seven external calls of `stageCalls`, in order, and then behaves as
`mainTail`. -/
theorem main_run_eq (env : Env S T O) (args : Args)
    (config0 config : Config) (t s tau v t_on_v s_on_v : S) (trans : T)
    (happly : applyOverrides args config0 = .ok config)
    (ht : env.zonal_sections args.tfile config "temperature" = .ok t)
    (hs : env.zonal_sections args.sfile config "salinity" = .ok s)
    (htau : env.zonal_sections args.taufile config "taux" = .ok tau)
    (hv : env.zonal_sections args.vfile config "meridional_velocity" = .ok v)
    (htv : env.interpolate t v = .ok t_on_v)
    (hsv : env.interpolate s v = .ok s_on_v)
    (hc : env.calc_transports_from_sections config v tau t_on_v s_on_v = .ok trans) :
    main env args config0 =
      ((mainTail env config trans).1,
        stageCalls args config t s tau v t_on_v s_on_v ++
          (mainTail env config trans).2) := by
  simp [main, mainTail, stageCalls, bind_eq_tbind, tlift, callExt,
    happly, ht, hs, htau, hv, htv, hsv, hc]

/-- An unconfigured observation kind loads nothing and makes no call. -/
theorem loadObsIf_none (kind : ObsKind)
    (loader : String → Option String → Except PyError O)
    (ta : Option String) :
    (loadObsIf (S := S) (T := T) kind loader none ta) =
      (Except.ok none, []) := rfl

/-- A configured observation kind makes exactly one loading call. -/
theorem loadObsIf_some (kind : ObsKind)
    (loader : String → Option String → Except PyError O)
    (f : String) (ta : Option String) :
    (loadObsIf (S := S) (T := T) kind loader (some f) ta) =
      (Except.map some (loader f ta), [.loadObs kind f ta]) := by
  cases h : loader f ta <;>
    simp [loadObsIf, bind_eq_tbind, callExt, pure_eq, h, Except.map]

/-- Every event of `loadObsIf` is an observation-loading call carrying
the `time_avg` value it was given. -/
theorem loadObsIf_events (kind : ObsKind)
    (loader : String → Option String → Except PyError O)
    (fileOpt : Option String) (ta : Option String) :
    ∀ e ∈ (loadObsIf (S := S) (T := T) kind loader fileOpt ta).2,
      ∃ k f, e = .loadObs k f ta := by
  cases fileOpt with
  | none => simp [loadObsIf_none]
  | some f =>
      cases h : loader f ta <;>
        simp [loadObsIf_some, h, Except.map]

/-- Every event of `call_plotdiag` is an observation load or the
plotting call, and every observation load uses the configured
`observations.time_avg` value. -/
theorem call_plotdiag_events (env : Env S T O) (config : Config) (trans : T) :
    ∀ e ∈ (call_plotdiag env config trans).2,
      ((e.isLoadObs ∧ ∃ k f, e =
          .loadObs k f (get_config_opt config "observations" "time_avg")) ∨
        e.isPlotDiag) := by
  simp only [call_plotdiag, bind_eq_tbind]
  refine tbind_forall ?_ fun oht => ?_
  · intro e he
    obtain ⟨k, f, rfl⟩ := loadObsIf_events _ _ _ _ e he
    exact Or.inl ⟨rfl, k, f, rfl⟩
  refine tbind_forall ?_ fun fc => ?_
  · intro e he
    obtain ⟨k, f, rfl⟩ := loadObsIf_events _ _ _ _ e he
    exact Or.inl ⟨rfl, k, f, rfl⟩
  refine tbind_forall ?_ fun sf => ?_
  · intro e he
    obtain ⟨k, f, rfl⟩ := loadObsIf_events _ _ _ _ e he
    exact Or.inl ⟨rfl, k, f, rfl⟩
  refine tbind_forall ?_ fun vol => ?_
  · intro e he
    obtain ⟨k, f, rfl⟩ := loadObsIf_events _ _ _ _ e he
    exact Or.inl ⟨rfl, k, f, rfl⟩
  refine tbind_forall (by simp [tlift]) fun od => ?_
  refine tbind_forall (by simp [tlift]) fun df => ?_
  refine tbind_forall (by simp [tlift]) fun nm => ?_
  simp [callExt, Event.isPlotDiag]

/-- With `output.plot` false, the tail of `main` is just the `SAVING`
message and the `close()` call. -/
theorem mainTail_plot_false (env : Env S T O) (config : Config) (trans : T)
    (hplot : config.getboolean "output" "plot" = .ok false) :
    mainTail env config trans =
      (env.close trans,
        [.stdout ("SAVING: " ++ env.filepath trans), .closeCall trans]) := by
  cases h : env.close trans <;>
    simp [mainTail, bind_eq_tbind, tlift, callExt, pure_eq, hplot, h]

/-- With `output.plot` true, the tail of `main` runs `call_plotdiag` and
then (if it returned) the `SAVING` message and the `close()` call. -/
theorem mainTail_plot_true (env : Env S T O) (config : Config) (trans : T)
    (hplot : config.getboolean "output" "plot" = .ok true) :
    mainTail env config trans =
      tbind (call_plotdiag env config trans) (fun _ =>
        (env.close trans,
          [.stdout ("SAVING: " ++ env.filepath trans), .closeCall trans])) := by
  cases hcp : call_plotdiag env config trans with
  | mk r tr =>
      cases r <;>
        cases h : env.close trans <;>
          simp [mainTail, bind_eq_tbind, tlift, callExt, pure_eq, hplot, hcp, h]

/-- Loading an observation call is a reporting-phase event. -/
theorem isReporting_of_isLoadObs (e : Event S T O)
    (h : e.isLoadObs = true) : e.isReporting = true := by
  cases e <;> simp_all [Event.isLoadObs, Event.isReporting]

/-- The plotting call is a reporting-phase event. -/
theorem isReporting_of_isPlotDiag (e : Event S T O)
    (h : e.isPlotDiag = true) : e.isReporting = true := by
  cases e <;> simp_all [Event.isPlotDiag, Event.isReporting]

/-- Every event of the tail of `main` belongs to the reporting phase. -/
theorem mainTail_events (env : Env S T O) (config : Config) (trans : T) :
    ∀ e ∈ (mainTail env config trans).2, e.isReporting = true := by
  intro e he
  cases hgb : config.getboolean "output" "plot" with
  | error err => simp [mainTail, bind_eq_tbind, tlift, hgb] at he
  | ok plot =>
      cases plot with
      | false =>
          rw [mainTail_plot_false env config trans hgb] at he
          rcases (by simpa using he : e = _ ∨ e = _) with rfl | rfl <;> rfl
      | true =>
          rw [mainTail_plot_true env config trans hgb] at he
          refine tbind_forall (P := fun ev => ev.isReporting = true) ?_ ?_ e he
          · intro e' he'
            rcases call_plotdiag_events env config trans e' he' with ⟨h1, _⟩ | h2
            · exact isReporting_of_isLoadObs e' h1
            · exact isReporting_of_isPlotDiag e' h2
          · intro _ e' he'
            rcases (by simpa using he' : e' = _ ∨ e' = _) with rfl | rfl <;> rfl

/-! ## Association-list lemmas for the configuration model -/

/-- Lookup after modifying the values of one key. -/
theorem lookup_map_modify {β : Type} (l : List (String × β)) (sec : String)
    (g : β → β) (k : String) :
    (l.map fun p => if p.1 = sec then (p.1, g p.2) else p).lookup k =
      (l.lookup k).map (fun w => if k = sec then g w else w) := by
  induction l with
  | nil => rfl
  | cons hd tl ih =>
      obtain ⟨a, b⟩ := hd
      simp only [List.map_cons]
      by_cases has : a = sec
      · rw [if_pos (by simpa using has)]
        by_cases hak : k = a
        · subst hak
          simp [List.lookup, beq_iff_eq, has, ih]
        · simp [List.lookup, beq_eq_false_iff_ne.2 hak, ih]
      · rw [if_neg (by simpa using has)]
        by_cases hak : k = a
        · subst hak
          simp [List.lookup, beq_iff_eq, has]
        · simp [List.lookup, beq_eq_false_iff_ne.2 hak, ih]

/-- Lookup distributes over appending of association lists. -/
theorem lookup_append {β : Type} (l1 l2 : List (String × β)) (k : String) :
    (l1 ++ l2).lookup k = (l1.lookup k).or (l2.lookup k) := by
  induction l1 with
  | nil => simp
  | cons hd tl ih =>
      obtain ⟨a, b⟩ := hd
      by_cases hak : k = a
      · subst hak
        simp [List.lookup]
      · simp [List.lookup, beq_eq_false_iff_ne.2 hak, ih]

/-- Lookup after `setOptList`: the written key reads back the new value,
other keys are unchanged. -/
theorem setOptList_lookup (opts : List (String × String)) (opt v k : String) :
    (setOptList opts opt v).lookup k =
      if k = opt then some v else opts.lookup k := by
  unfold setOptList
  by_cases hs : (opts.lookup opt).isSome
  · rw [if_pos hs]
    have := lookup_map_modify opts opt (fun _ => v) k
    simp only at this
    rw [this]
    by_cases hk : k = opt
    · subst hk
      obtain ⟨w, hw⟩ := Option.isSome_iff_exists.1 hs
      simp [hw]
    · simp [hk]
  · rw [if_neg hs]
    rw [lookup_append]
    by_cases hk : k = opt
    · subst hk
      simp [List.lookup, Option.not_isSome_iff_eq_none.1 hs]
    · simp [List.lookup, hk, beq_eq_false_iff_ne.2 hk]

/-- `Config.get` on a non-`DEFAULT` section, unfolded. -/
theorem Config.get_eq (c : Config) (sec opt : String) (hsec : sec ≠ "DEFAULT") :
    c.get sec opt =
      (match c.sections.lookup sec with
       | none => .error (.noSectionError sec)
       | some opts =>
           match c.lookupOpt opts opt with
           | some v => .ok v
           | none => .error (.noOptionError sec opt)) := by
  simp [Config.get, hsec]

/-- `Config.set` on an existing non-`DEFAULT` section succeeds and maps
the section list. -/
theorem Config.set_ok (c : Config) (sec opt v : String)
    (opts : List (String × String))
    (hsec : sec ≠ "DEFAULT") (h : c.sections.lookup sec = some opts) :
    c.set sec opt v =
      .ok ⟨c.defaults,
        c.sections.map fun p =>
          if p.1 = sec then (p.1, setOptList p.2 opt v) else p⟩ := by
  simp [Config.set, hsec, h]

/-- `call_plotdiag` never calls `close()`. -/
theorem call_plotdiag_no_close (env : Env S T O) (config : Config)
    (trans : T) :
    ∀ e ∈ (call_plotdiag env config trans).2, e.isClose = false := by
  intro e he
  rcases call_plotdiag_events env config trans e he with ⟨h1, _⟩ | h1 <;>
    cases e <;> simp_all [Event.isLoadObs, Event.isPlotDiag, Event.isClose]

/-! ## The claims -/

/-- C5: whichever pipeline stage raises — any of the four section
loads, either interpolation, or the transport computation — no later
stage runs, no output is produced (the trace has no `SAVING` print and
no `close()`), and the error propagates to the top level unchanged:
each failing run is exactly the calls made up to and including the
failing one, with no retry and no internal recovery. -/
theorem c5_error_aborts_run (env : Env S T O) (args : Args)
    (config0 config : Config)
    (happly : applyOverrides args config0 = .ok config) :
    (∀ e, env.zonal_sections args.tfile config "temperature" = .error e →
      main env args config0 =
        (.error e, [.loadSection args.tfile config "temperature"])) ∧
    (∀ t e, env.zonal_sections args.tfile config "temperature" = .ok t →
      env.zonal_sections args.sfile config "salinity" = .error e →
      main env args config0 =
        (.error e, [.loadSection args.tfile config "temperature",
                    .loadSection args.sfile config "salinity"])) ∧
    (∀ t s e, env.zonal_sections args.tfile config "temperature" = .ok t →
      env.zonal_sections args.sfile config "salinity" = .ok s →
      env.zonal_sections args.taufile config "taux" = .error e →
      main env args config0 =
        (.error e, [.loadSection args.tfile config "temperature",
                    .loadSection args.sfile config "salinity",
                    .loadSection args.taufile config "taux"])) ∧
    (∀ t s tau e,
      env.zonal_sections args.tfile config "temperature" = .ok t →
      env.zonal_sections args.sfile config "salinity" = .ok s →
      env.zonal_sections args.taufile config "taux" = .ok tau →
      env.zonal_sections args.vfile config "meridional_velocity" = .error e →
      main env args config0 =
        (.error e, [.loadSection args.tfile config "temperature",
                    .loadSection args.sfile config "salinity",
                    .loadSection args.taufile config "taux",
                    .loadSection args.vfile config "meridional_velocity"])) ∧
    (∀ t s tau v e,
      env.zonal_sections args.tfile config "temperature" = .ok t →
      env.zonal_sections args.sfile config "salinity" = .ok s →
      env.zonal_sections args.taufile config "taux" = .ok tau →
      env.zonal_sections args.vfile config "meridional_velocity" = .ok v →
      env.interpolate t v = .error e →
      main env args config0 =
        (.error e, [.loadSection args.tfile config "temperature",
                    .loadSection args.sfile config "salinity",
                    .loadSection args.taufile config "taux",
                    .loadSection args.vfile config "meridional_velocity",
                    .interpolateCall t v])) ∧
    (∀ t s tau v t_on_v e,
      env.zonal_sections args.tfile config "temperature" = .ok t →
      env.zonal_sections args.sfile config "salinity" = .ok s →
      env.zonal_sections args.taufile config "taux" = .ok tau →
      env.zonal_sections args.vfile config "meridional_velocity" = .ok v →
      env.interpolate t v = .ok t_on_v →
      env.interpolate s v = .error e →
      main env args config0 =
        (.error e, [.loadSection args.tfile config "temperature",
                    .loadSection args.sfile config "salinity",
                    .loadSection args.taufile config "taux",
                    .loadSection args.vfile config "meridional_velocity",
                    .interpolateCall t v,
                    .interpolateCall s v])) ∧
    (∀ t s tau v t_on_v s_on_v e,
      env.zonal_sections args.tfile config "temperature" = .ok t →
      env.zonal_sections args.sfile config "salinity" = .ok s →
      env.zonal_sections args.taufile config "taux" = .ok tau →
      env.zonal_sections args.vfile config "meridional_velocity" = .ok v →
      env.interpolate t v = .ok t_on_v →
      env.interpolate s v = .ok s_on_v →
      env.calc_transports_from_sections config v tau t_on_v s_on_v =
        .error e →
      main env args config0 =
        (.error e, [.loadSection args.tfile config "temperature",
                    .loadSection args.sfile config "salinity",
                    .loadSection args.taufile config "taux",
                    .loadSection args.vfile config "meridional_velocity",
                    .interpolateCall t v,
                    .interpolateCall s v,
                    .calcTransports config v tau t_on_v s_on_v])) := by
  refine ⟨?_, ?_, ?_, ?_, ?_, ?_, ?_⟩
  · intro e h1
    simp [main, bind_eq_tbind, tlift, callExt, happly, h1]
  · intro t e h1 h2
    simp [main, bind_eq_tbind, tlift, callExt, happly, h1, h2]
  · intro t s e h1 h2 h3
    simp [main, bind_eq_tbind, tlift, callExt, happly, h1, h2, h3]
  · intro t s tau e h1 h2 h3 h4
    simp [main, bind_eq_tbind, tlift, callExt, happly, h1, h2, h3, h4]
  · intro t s tau v e h1 h2 h3 h4 h5
    simp [main, bind_eq_tbind, tlift, callExt, happly, h1, h2, h3, h4, h5]
  · intro t s tau v t_on_v e h1 h2 h3 h4 h5 h6
    simp [main, bind_eq_tbind, tlift, callExt, happly, h1, h2, h3, h4, h5, h6]
  · intro t s tau v t_on_v s_on_v e h1 h2 h3 h4 h5 h6 h7
    simp [main, bind_eq_tbind, tlift, callExt, happly, h1, h2, h3, h4, h5,
      h6, h7]

/-- C5 witness: a run whose temperature load raises a `DataLoadError`
aborts as that single call, and a run whose transport computation
raises aborts as the seven pipeline calls with no reporting event. -/
theorem c5_witness :
    main failTempEnv argsA cfgA =
      (.error (.stageError "DataLoadError"),
        [.loadSection "t.nc" cfgA "temperature"]) ∧
    main failCalcEnv argsA cfgA =
      (.error (.stageError "ComputationError"),
        [.loadSection "t.nc" cfgA "temperature",
         .loadSection "s.nc" cfgA "salinity",
         .loadSection "tau.nc" cfgA "taux",
         .loadSection "v.nc" cfgA "meridional_velocity",
         .interpolateCall "temperature" "meridional_velocity",
         .interpolateCall "salinity" "meridional_velocity",
         .calcTransports cfgA "meridional_velocity" "taux"
           "temperature@meridional_velocity"
           "salinity@meridional_velocity"]) :=
  ⟨(c5_error_aborts_run failTempEnv argsA cfgA cfgA rfl).1 _ rfl,
    (c5_error_aborts_run failCalcEnv argsA cfgA cfgA rfl).2.2.2.2.2.2
      "temperature" "salinity" "taux" "meridional_velocity"
      "temperature@meridional_velocity" "salinity@meridional_velocity" _
      rfl rfl rfl rfl rfl rfl rfl⟩

/-- C10: `get_config_opt` returns `None` (and never raises) both when
the option is absent from an existing section and when the whole
section is absent; consequently, under a configuration with no
`observations` section at all, `call_plotdiag` skips all four loaders
and passes four `None`s to the reporter, just as if all four kinds were
individually unconfigured. -/
theorem c10_get_config_opt_total {S T O : Type} (config : Config) :
    (∀ sec opt, sec ≠ "DEFAULT" → config.sections.lookup sec = none →
      get_config_opt config sec opt = none) ∧
    (∀ sec opts opt, sec ≠ "DEFAULT" →
      config.sections.lookup sec = some opts →
      config.lookupOpt opts opt = none →
      get_config_opt config sec opt = none) ∧
    (config.sections.lookup "observations" = none →
      ∀ (env : Env S T O) (trans : T),
        (call_plotdiag env config trans).2.filter Event.isLoadObs = [] ∧
        ∀ e ∈ (call_plotdiag env config trans).2,
          ∀ (tr2 : T) (nm od df : String) (vol fc oht sf : Option O),
            e = .plotDiag tr2 nm od df vol fc oht sf →
            vol = none ∧ fc = none ∧ oht = none ∧ sf = none) := by
  refine ⟨?_, ?_, ?_⟩
  · intro sec opt hne h
    simp [get_config_opt, Config.has_option, hne, h]
  · intro sec opts opt hne h hlo
    simp [get_config_opt, Config.has_option, hne, h, hlo]
  · intro hobs env trans
    have hgco : ∀ opt, get_config_opt config "observations" opt = none := by
      intro opt
      simp [get_config_opt, Config.has_option, hobs]
    refine ⟨?_, ?_⟩ <;>
      rcases hod : config.get "output" "outdir" with e1 | od <;>
      rcases hdf : config.get "output" "date_format" with e2 | df <;>
      rcases hnm : config.get "output" "name" with e3 | nm <;>
      simp [call_plotdiag, bind_eq_tbind, hgco, loadObsIf_none, tlift,
        callExt, hod, hdf, hnm, Event.isLoadObs] <;>
      (try (intros; subst_vars; exact ⟨rfl, rfl, rfl, rfl⟩))

/-- C10 witness: on the sample configuration lacking an `observations`
section, the lookup is `None` and no observation loader is called. -/
theorem c10_witness :
    get_config_opt cfgB "observations" "time_avg" = none ∧
    (call_plotdiag okEnv cfgB "trans").2.filter Event.isLoadObs = [] :=
  ⟨(c10_get_config_opt_total (S := String) (T := String) (O := String)
      cfgB).1 "observations" "time_avg" (by decide) rfl,
    ((c10_get_config_opt_total cfgB).2.2 rfl okEnv "trans").1⟩

/-- C8: every observation load performed by `call_plotdiag` uses the
single configured `observations.time_avg` value, read once; that value
is `None` when the option is not configured. -/
theorem c8_uniform_time_avg (env : Env S T O) (config : Config) (trans : T) :
    (∀ e ∈ (call_plotdiag env config trans).2, ∀ k f ta,
      e = .loadObs k f ta →
        ta = get_config_opt config "observations" "time_avg") ∧
    (config.has_option "observations" "time_avg" = false →
      get_config_opt config "observations" "time_avg" = none) := by
  constructor
  · intro e he k f ta heq
    subst heq
    rcases call_plotdiag_events env config trans _ he with ⟨_, k', f', hfix⟩ | h2
    · injection hfix with hk hf hta
    · simp [Event.isPlotDiag] at h2
  · intro h
    simp [get_config_opt, h]

/-- C2: the pipeline runs in the fixed order: the four section loads
(temperature, salinity, wind stress, meridional velocity), then the two
interpolations onto the velocity grid, then
`calc_transports_from_sections(config, v, tau, t_on_v, s_on_v)` with
exactly those arguments — and only afterwards the reporting phase
(optional observation loading and diagnostics). -/
theorem c2_pipeline_order (env : Env S T O) (args : Args)
    (config0 config : Config) (t s tau v t_on_v s_on_v : S) (trans : T)
    (happly : applyOverrides args config0 = .ok config)
    (ht : env.zonal_sections args.tfile config "temperature" = .ok t)
    (hs : env.zonal_sections args.sfile config "salinity" = .ok s)
    (htau : env.zonal_sections args.taufile config "taux" = .ok tau)
    (hv : env.zonal_sections args.vfile config "meridional_velocity" = .ok v)
    (htv : env.interpolate t v = .ok t_on_v)
    (hsv : env.interpolate s v = .ok s_on_v)
    (hc : env.calc_transports_from_sections config v tau t_on_v s_on_v = .ok trans) :
    ∃ (r : Except PyError Unit) (rest : List (Event S T O)),
      main env args config0 =
        (r, [.loadSection args.tfile config "temperature",
             .loadSection args.sfile config "salinity",
             .loadSection args.taufile config "taux",
             .loadSection args.vfile config "meridional_velocity",
             .interpolateCall t v,
             .interpolateCall s v,
             .calcTransports config v tau t_on_v s_on_v] ++ rest) ∧
        ∀ e ∈ rest, e.isReporting = true := by
  refine ⟨(mainTail env config trans).1, (mainTail env config trans).2, ?_, ?_⟩
  · simpa [stageCalls] using
      main_run_eq env args config0 config t s tau v t_on_v s_on_v trans
        happly ht hs htau hv htv hsv hc
  · exact mainTail_events env config trans

/-- C2 witness: the order on a concrete successful run. -/
theorem c2_witness :
    ∃ (r : Except PyError Unit) (rest : List (Event String String String)),
      main okEnv argsA cfgA =
        (r, [.loadSection "t.nc" cfgA "temperature",
             .loadSection "s.nc" cfgA "salinity",
             .loadSection "tau.nc" cfgA "taux",
             .loadSection "v.nc" cfgA "meridional_velocity",
             .interpolateCall "temperature" "meridional_velocity",
             .interpolateCall "salinity" "meridional_velocity",
             .calcTransports cfgA "meridional_velocity" "taux"
               "temperature@meridional_velocity"
               "salinity@meridional_velocity"] ++ rest) ∧
        ∀ e ∈ rest, e.isReporting = true :=
  c2_pipeline_order okEnv argsA cfgA cfgA "temperature" "salinity" "taux"
    "meridional_velocity" "temperature@meridional_velocity"
    "salinity@meridional_velocity" "trans" rfl rfl rfl rfl rfl rfl rfl rfl

/-- C6: diagnostics plotting, and with it any observation loading, runs
iff `output.plot` is true: when it parses false, the run performs no
observation load and no plotting call but still prints the `SAVING`
message and closes the result; when true, the whole of `call_plotdiag`
runs between the pipeline stages and the save. -/
theorem c6_plot_iff_option (env : Env S T O) (args : Args)
    (config0 config : Config) (t s tau v t_on_v s_on_v : S) (trans : T)
    (happly : applyOverrides args config0 = .ok config)
    (ht : env.zonal_sections args.tfile config "temperature" = .ok t)
    (hs : env.zonal_sections args.sfile config "salinity" = .ok s)
    (htau : env.zonal_sections args.taufile config "taux" = .ok tau)
    (hv : env.zonal_sections args.vfile config "meridional_velocity" = .ok v)
    (htv : env.interpolate t v = .ok t_on_v)
    (hsv : env.interpolate s v = .ok s_on_v)
    (hc : env.calc_transports_from_sections config v tau t_on_v s_on_v = .ok trans)
    (plot : Bool)
    (hplot : config.getboolean "output" "plot" = .ok plot) :
    (plot = false →
      main env args config0 =
        (env.close trans,
          stageCalls args config t s tau v t_on_v s_on_v ++
            [.stdout ("SAVING: " ++ env.filepath trans), .closeCall trans]) ∧
      (main env args config0).2.filter Event.isLoadObs = [] ∧
      (main env args config0).2.filter Event.isPlotDiag = []) ∧
    (plot = true →
      ∃ (r : Except PyError Unit) (tail : List (Event S T O)),
        main env args config0 =
          (r, stageCalls args config t s tau v t_on_v s_on_v ++
            ((call_plotdiag env config trans).2 ++ tail))) := by
  have hmain := main_run_eq env args config0 config t s tau v t_on_v s_on_v
    trans happly ht hs htau hv htv hsv hc
  constructor
  · rintro rfl
    rw [mainTail_plot_false env config trans hplot] at hmain
    refine ⟨hmain, ?_, ?_⟩ <;>
      simp [hmain, stageCalls, List.filter_append, Event.isLoadObs,
        Event.isPlotDiag, Event.isClose]
  · rintro rfl
    rw [mainTail_plot_true env config trans hplot] at hmain
    cases hcp : call_plotdiag env config trans with
    | mk r tr =>
        rw [hcp] at hmain
        cases r with
        | error e1 =>
            refine ⟨.error e1, [], ?_⟩
            rw [hmain]
            simp [hcp]
        | ok u =>
            cases u
            refine ⟨env.close trans,
              [.stdout ("SAVING: " ++ env.filepath trans),
               .closeCall trans], ?_⟩
            rw [hmain]
            simp [hcp]

/-- C6 witness: with `output.plot = no` in the configuration, a run
loads no observations and renders nothing, yet saves and closes. -/
theorem c6_witness :
    main okEnv argsA cfgB =
      (Except.ok (),
        stageCalls argsA cfgB "temperature" "salinity" "taux"
          "meridional_velocity" "temperature@meridional_velocity"
          "salinity@meridional_velocity" ++
          [.stdout "SAVING: trans.nc", .closeCall "trans"]) ∧
    (main okEnv argsA cfgB).2.filter Event.isLoadObs = [] ∧
    (main okEnv argsA cfgB).2.filter Event.isPlotDiag = [] :=
  (c6_plot_iff_option okEnv argsA cfgB cfgB "temperature" "salinity" "taux"
    "meridional_velocity" "temperature@meridional_velocity"
    "salinity@meridional_velocity" "trans" rfl rfl rfl rfl rfl rfl rfl rfl
    false (by decide)).1 rfl

/-- C7: on a successful run, the output file path is printed and then
the result is closed, exactly once, as the final two steps of the
trace. -/
theorem c7_success_saves_and_closes_once (env : Env S T O) (args : Args)
    (config0 config : Config) (t s tau v t_on_v s_on_v : S) (trans : T)
    (happly : applyOverrides args config0 = .ok config)
    (ht : env.zonal_sections args.tfile config "temperature" = .ok t)
    (hs : env.zonal_sections args.sfile config "salinity" = .ok s)
    (htau : env.zonal_sections args.taufile config "taux" = .ok tau)
    (hv : env.zonal_sections args.vfile config "meridional_velocity" = .ok v)
    (htv : env.interpolate t v = .ok t_on_v)
    (hsv : env.interpolate s v = .ok s_on_v)
    (hc : env.calc_transports_from_sections config v tau t_on_v s_on_v = .ok trans)
    (plot : Bool)
    (hplot : config.getboolean "output" "plot" = .ok plot)
    (hpd : plot = true → (call_plotdiag env config trans).1 = .ok ())
    (hclose : env.close trans = .ok ()) :
    ∃ pre : List (Event S T O),
      main env args config0 =
        (.ok (), pre ++ [Event.stdout ("SAVING: " ++ env.filepath trans),
                         Event.closeCall trans]) ∧
      (pre ++ [Event.stdout ("SAVING: " ++ env.filepath trans),
               Event.closeCall trans]).filter Event.isClose =
        [Event.closeCall trans] := by
  have hmain := main_run_eq env args config0 config t s tau v t_on_v s_on_v
    trans happly ht hs htau hv htv hsv hc
  cases plot with
  | false =>
      rw [mainTail_plot_false env config trans hplot, hclose] at hmain
      refine ⟨stageCalls args config t s tau v t_on_v s_on_v, hmain, ?_⟩
      simp [stageCalls, List.filter_append, Event.isClose]
  | true =>
      rw [mainTail_plot_true env config trans hplot] at hmain
      cases hcp : call_plotdiag env config trans with
      | mk r tr =>
          have hr : r = .ok () := by
            have h1 := hpd rfl
            rw [hcp] at h1
            exact h1
          subst hr
          rw [hcp] at hmain
          simp only [tbind_mk_ok, hclose] at hmain
          refine ⟨stageCalls args config t s tau v t_on_v s_on_v ++ tr, ?_, ?_⟩
          · simpa [List.append_assoc] using hmain
          · have htr : tr.filter Event.isClose = [] := by
              refine List.filter_eq_nil_iff.2 ?_
              intro e he
              have := call_plotdiag_no_close env config trans e
                (by rw [hcp]; exact he)
              simp [this]
            simp [stageCalls, List.filter_append, htr, Event.isClose]

/-- C7 witness: a concrete successful run ends with the `SAVING`
message and a single close. -/
theorem c7_witness :
    ∃ pre : List (Event String String String),
      main okEnv argsA cfgA =
        (.ok (),
          pre ++ [Event.stdout "SAVING: trans.nc", Event.closeCall "trans"]) ∧
      (pre ++ [Event.stdout "SAVING: trans.nc",
               Event.closeCall "trans"]).filter Event.isClose =
        [Event.closeCall "trans"] :=
  c7_success_saves_and_closes_once okEnv argsA cfgA cfgA "temperature"
    "salinity" "taux" "meridional_velocity"
    "temperature@meridional_velocity" "salinity@meridional_velocity"
    "trans" rfl rfl rfl rfl rfl rfl rfl rfl true (by decide) (fun _ => rfl) rfl

/-- C4 counterexample: with `output.plot` true and a failing plotting
call, the run exits by the propagating exception after the transports
object was created (the computation call is in the trace), and the
trace contains no `close()` call at all — so the output file handle is
not closed on this exit path, contradicting the claim. -/
theorem c4_counterexample_close_skipped :
    (main badPlotEnv argsA cfgA).1 = .error (.stageError "PlotFailure") ∧
    (main badPlotEnv argsA cfgA).2.filter Event.isCalc ≠ [] ∧
    (main badPlotEnv argsA cfgA).2.filter Event.isClose = [] := by
  refine ⟨by decide, by decide, by decide⟩

/-- C4 (amended): the output file handle is closed on the successful
exit path, but when a stage after the `TransportResult` is created
fails — for example diagnostics plotting — the error propagates and
`close()` is never called. -/
theorem c4_amended_close_on_success_only (env : Env S T O) (args : Args)
    (config0 config : Config) (t s tau v t_on_v s_on_v : S) (trans : T)
    (happly : applyOverrides args config0 = .ok config)
    (ht : env.zonal_sections args.tfile config "temperature" = .ok t)
    (hs : env.zonal_sections args.sfile config "salinity" = .ok s)
    (htau : env.zonal_sections args.taufile config "taux" = .ok tau)
    (hv : env.zonal_sections args.vfile config "meridional_velocity" = .ok v)
    (htv : env.interpolate t v = .ok t_on_v)
    (hsv : env.interpolate s v = .ok s_on_v)
    (hc : env.calc_transports_from_sections config v tau t_on_v s_on_v = .ok trans)
    (hplot : config.getboolean "output" "plot" = .ok true) :
    ((call_plotdiag env config trans).1 = .ok () →
      Event.closeCall trans ∈ (main env args config0).2) ∧
    (∀ e', (call_plotdiag env config trans).1 = .error e' →
      main env args config0 =
        (.error e',
          stageCalls args config t s tau v t_on_v s_on_v ++
            (call_plotdiag env config trans).2) ∧
      (main env args config0).2.filter Event.isClose = []) := by
  have hmain := main_run_eq env args config0 config t s tau v t_on_v s_on_v
    trans happly ht hs htau hv htv hsv hc
  rw [mainTail_plot_true env config trans hplot] at hmain
  cases hcp : call_plotdiag env config trans with
  | mk r tr =>
      rw [hcp] at hmain
      have htr : tr.filter Event.isClose = [] := by
        refine List.filter_eq_nil_iff.2 ?_
        intro e he
        have := call_plotdiag_no_close env config trans e
          (by rw [hcp]; exact he)
        simp [this]
      constructor
      · intro hok
        have hr : r = .ok () := hok
        subst hr
        rw [hmain]
        simp
      · intro e' herr
        have hr : r = .error e' := herr
        subst hr
        refine ⟨by rw [hmain]; simp, ?_⟩
        rw [hmain]
        simp [stageCalls, List.filter_append, htr, Event.isClose]

/-- C4 amended-claim witness: on a concrete successful run the close
call is in the trace. -/
theorem c4_witness :
    Event.closeCall "trans" ∈ (main okEnv argsA cfgA).2 :=
  (c4_amended_close_on_success_only okEnv argsA cfgA cfgA "temperature"
    "salinity" "taux" "meridional_velocity"
    "temperature@meridional_velocity" "salinity@meridional_velocity"
    "trans" rfl rfl rfl rfl rfl rfl rfl rfl (by decide)).1 rfl

/-- Setting an option in an existing non-`DEFAULT` section: the new
configuration keeps the defaults, rewrites that one section with
`setOptList`, and leaves every other section unchanged. -/
theorem set_get (c : Config) (sec opt v : String)
    (opts : List (String × String))
    (hsec : sec ≠ "DEFAULT") (h : c.sections.lookup sec = some opts) :
    ∃ c', c.set sec opt v = .ok c' ∧
      c'.defaults = c.defaults ∧
      c'.sections.lookup sec = some (setOptList opts opt v) ∧
      ∀ k, k ≠ sec → c'.sections.lookup k = c.sections.lookup k := by
  refine ⟨_, Config.set_ok c sec opt v opts hsec h, rfl, ?_, ?_⟩
  · rw [lookup_map_modify c.sections sec (fun x => setOptList x opt v) sec]
    simp [h]
  · intro k hk
    rw [lookup_map_modify c.sections sec (fun x => setOptList x opt v) k]
    simp [hk]

/-- Whatever happens later, the first external call of `main` is the
temperature load carrying the merged configuration. -/
theorem main_head (env : Env S T O) (args : Args) (config0 config : Config)
    (happly : applyOverrides args config0 = .ok config) :
    (main env args config0).2.head? =
      some (.loadSection args.tfile config "temperature") := by
  cases hz : env.zonal_sections args.tfile config "temperature" with
  | error e => simp [main, bind_eq_tbind, tlift, callExt, happly, hz]
  | ok t => simp [main, bind_eq_tbind, tlift, callExt, happly, hz]

/-- `loadObsIf` with an always-succeeding loader: the result is the
(mapped) configured file option and the trace is the corresponding
optional load event. -/
theorem loadObsIf_total (kind : ObsKind) (ld : String → Option String → O)
    (fileOpt ta : Option String) :
    loadObsIf (S := S) (T := T) kind (fun f t => .ok (ld f t)) fileOpt ta =
      (.ok (fileOpt.map fun f => ld f ta),
        (fileOpt.map fun f =>
          Event.loadObs (S := S) (T := T) (O := O) kind f ta).toList) := by
  cases fileOpt <;> simp [loadObsIf_none, loadObsIf_some, Except.map]

/-- C1: `call_plotdiag` constructs an observation set and passes it to
the reporter iff the configuration names its source file; an
unconfigured kind reaches the reporter as `None`, never as a default
or empty placeholder.  (Loaders are assumed to succeed on configured
files; a failing loader aborts before the reporter is called.) -/
theorem c1_observations_iff_configured (env : Env S T O) (config : Config)
    (trans : T) (ld1 ld2 ld3 ld4 : String → Option String → O)
    (hoht : env.heat_transport_obs = fun f ta => .ok (ld1 f ta))
    (hfc : env.florida_current_obs = fun f ta => .ok (ld2 f ta))
    (hsf : env.stream_function_obs = fun f ta => .ok (ld3 f ta))
    (hvol : env.volume_transport_obs = fun f ta => .ok (ld4 f ta))
    (od df nm : String)
    (hod : config.get "output" "outdir" = .ok od)
    (hdf : config.get "output" "date_format" = .ok df)
    (hnm : config.get "output" "name" = .ok nm) :
    ∃ (pre : List (Event S T O)) (vol fc oht sf : Option O),
      call_plotdiag env config trans =
        (env.plot_diagnostics trans nm od df vol fc oht sf,
          pre ++ [.plotDiag trans nm od df vol fc oht sf]) ∧
      (oht.isSome =
        (get_config_opt config "observations" "heat_transports").isSome) ∧
      (get_config_opt config "observations" "heat_transports" = none →
        oht = none) ∧
      (fc.isSome =
        (get_config_opt config "observations" "florida_current").isSome) ∧
      (get_config_opt config "observations" "florida_current" = none →
        fc = none) ∧
      (vol.isSome =
        (get_config_opt config "observations" "volume_transports").isSome) ∧
      (get_config_opt config "observations" "volume_transports" = none →
        vol = none) ∧
      (sf.isSome =
        (get_config_opt config "observations" "streamfunctions").isSome) ∧
      (get_config_opt config "observations" "streamfunctions" = none →
        sf = none) := by
  refine ⟨((get_config_opt config "observations" "heat_transports").map
        fun f => Event.loadObs (S := S) (T := T) (O := O) .heat_transports f
          (get_config_opt config "observations" "time_avg")).toList ++
      (((get_config_opt config "observations" "florida_current").map
        fun f => Event.loadObs (S := S) (T := T) (O := O) .florida_current f
          (get_config_opt config "observations" "time_avg")).toList ++
      (((get_config_opt config "observations" "streamfunctions").map
        fun f => Event.loadObs (S := S) (T := T) (O := O) .streamfunctions f
          (get_config_opt config "observations" "time_avg")).toList ++
      ((get_config_opt config "observations" "volume_transports").map
        fun f => Event.loadObs (S := S) (T := T) (O := O) .volume_transports f
          (get_config_opt config "observations" "time_avg")).toList)),
    (get_config_opt config "observations" "volume_transports").map
      (fun f => ld4 f (get_config_opt config "observations" "time_avg")),
    (get_config_opt config "observations" "florida_current").map
      (fun f => ld2 f (get_config_opt config "observations" "time_avg")),
    (get_config_opt config "observations" "heat_transports").map
      (fun f => ld1 f (get_config_opt config "observations" "time_avg")),
    (get_config_opt config "observations" "streamfunctions").map
      (fun f => ld3 f (get_config_opt config "observations" "time_avg")),
    ?_, ?_, ?_, ?_, ?_, ?_, ?_, ?_, ?_⟩
  · simp [call_plotdiag, bind_eq_tbind, hoht, hfc, hsf, hvol, loadObsIf_total,
      tlift, callExt, hod, hdf, hnm]
  all_goals
    have hmap : ∀ (o : Option String) (g : String → O),
        (o.map g).isSome = o.isSome := by
      intro o g
      cases o <;> rfl
  all_goals
    first
      | exact hmap _ _
      | (intro h; simp [h])

/-- C1 witness: on the sample configuration, heat transports is
configured and reaches the reporter as `some`; the other three kinds
are unconfigured and reach it as `None`. -/
theorem c1_witness :
    ∃ (pre : List (Event String String String))
      (vol fc oht sf : Option String),
      call_plotdiag okEnv cfgA "trans" =
        (okEnv.plot_diagnostics "trans" "run1" "/data/out" "y_m_d"
            vol fc oht sf,
          pre ++ [.plotDiag "trans" "run1" "/data/out" "y_m_d"
            vol fc oht sf]) ∧
      (oht.isSome =
        (get_config_opt cfgA "observations" "heat_transports").isSome) ∧
      (get_config_opt cfgA "observations" "heat_transports" = none →
        oht = none) ∧
      (fc.isSome =
        (get_config_opt cfgA "observations" "florida_current").isSome) ∧
      (get_config_opt cfgA "observations" "florida_current" = none →
        fc = none) ∧
      (vol.isSome =
        (get_config_opt cfgA "observations" "volume_transports").isSome) ∧
      (get_config_opt cfgA "observations" "volume_transports" = none →
        vol = none) ∧
      (sf.isSome =
        (get_config_opt cfgA "observations" "streamfunctions").isSome) ∧
      (get_config_opt cfgA "observations" "streamfunctions" = none →
        sf = none) :=
  c1_observations_iff_configured okEnv cfgA "trans"
    (fun f _ => "oht:" ++ f) (fun f _ => "fc:" ++ f)
    (fun f _ => "sf:" ++ f) (fun f _ => "vol:" ++ f)
    rfl rfl rfl rfl "/data/out" "y_m_d" "run1" rfl rfl rfl

/-- C3: the `--name`/`--outdir` overrides take precedence over the
configuration file: after the merge at the start of `main`, reading
`output.name`/`output.outdir` from the configuration every stage
receives yields the override value when one was supplied and the
unchanged file value otherwise; the first pipeline call already
carries the merged configuration. -/
theorem c3_cli_overrides_take_precedence (args : Args) (config0 : Config)
    (opts : List (String × String))
    (hout : config0.sections.lookup "output" = some opts) :
    ∃ config, applyOverrides args config0 = .ok config ∧
      config.get "output" "name" =
        (match args.name with
         | some n => .ok n
         | none => config0.get "output" "name") ∧
      config.get "output" "outdir" =
        (match args.outdir with
         | some d => .ok d
         | none => config0.get "output" "outdir") ∧
      ∀ {S T O : Type} (env : Env S T O),
        (main env args config0).2.head? =
          some (.loadSection args.tfile config "temperature") := by
  obtain ⟨cf, tf, sfl, tauf, vf, nm, od⟩ := args
  cases nm with
  | none =>
      cases od with
      | none =>
          refine ⟨config0, rfl, rfl, rfl, ?_⟩
          intro S T O env
          exact main_head env _ config0 config0 rfl
      | some d =>
          obtain ⟨c1, hset, hdef, hsec, hoth⟩ :=
            set_get config0 "output" "outdir" d opts (by decide) hout
          have happly :
              applyOverrides ⟨cf, tf, sfl, tauf, vf, none, some d⟩ config0 =
                .ok c1 := by
            simp [applyOverrides, hset]
          refine ⟨c1, happly, ?_, ?_, ?_⟩
          · rw [Config.get_eq c1 _ _ (by decide),
              Config.get_eq config0 _ _ (by decide), hsec, hout]
            simp [Config.lookupOpt, setOptList_lookup, hdef]
          · rw [Config.get_eq c1 _ _ (by decide), hsec]
            simp [Config.lookupOpt, setOptList_lookup]
          · intro S T O env
            exact main_head env _ config0 c1 happly
  | some n =>
      obtain ⟨c1, hset1, hdef1, hsec1, hoth1⟩ :=
        set_get config0 "output" "name" n opts (by decide) hout
      cases od with
      | none =>
          have happly :
              applyOverrides ⟨cf, tf, sfl, tauf, vf, some n, none⟩ config0 =
                .ok c1 := by
            simp [applyOverrides, hset1]
          refine ⟨c1, happly, ?_, ?_, ?_⟩
          · rw [Config.get_eq c1 _ _ (by decide), hsec1]
            simp [Config.lookupOpt, setOptList_lookup]
          · rw [Config.get_eq c1 _ _ (by decide),
              Config.get_eq config0 _ _ (by decide), hsec1, hout]
            simp [Config.lookupOpt, setOptList_lookup, hdef1]
          · intro S T O env
            exact main_head env _ config0 c1 happly
      | some d =>
          obtain ⟨c2, hset2, hdef2, hsec2, hoth2⟩ :=
            set_get c1 "output" "outdir" d (setOptList opts "name" n)
              (by decide) hsec1
          have happly :
              applyOverrides ⟨cf, tf, sfl, tauf, vf, some n, some d⟩ config0 =
                .ok c2 := by
            simp only [applyOverrides, hset1]
            exact hset2
          refine ⟨c2, happly, ?_, ?_, ?_⟩
          · rw [Config.get_eq c2 _ _ (by decide), hsec2]
            simp [Config.lookupOpt, setOptList_lookup]
          · rw [Config.get_eq c2 _ _ (by decide), hsec2]
            simp [Config.lookupOpt, setOptList_lookup]
          · intro S T O env
            exact main_head env _ config0 c2 happly

/-- C3 witness: with both overrides supplied against the sample
configuration (whose file values are `run1` and `/data/out`), the
merged configuration reads back the override values. -/
theorem c3_witness :
    ∃ config, applyOverrides argsB cfgA = .ok config ∧
      config.get "output" "name" = .ok "cli_name" ∧
      config.get "output" "outdir" = .ok "/cli/out" ∧
      ∀ {S T O : Type} (env : Env S T O),
        (main env argsB cfgA).2.head? =
          some (.loadSection "t.nc" config "temperature") :=
  c3_cli_overrides_take_precedence argsB cfgA
    [("name", "run1"), ("outdir", "/data/out"),
     ("date_format", "y_m_d"), ("plot", "True")] rfl

/-- C9: after the command-line overrides are merged into the
configuration at the start of `main`, every later stage call carries
exactly the merged configuration value — no stage call in the whole
run, including a failing one, ever receives any other configuration.
(The external stages are modelled as pure functions, per the
specification's no-mutation contract, so in-place mutation by a stage
is not expressible; the theorem shows `main` itself threads one
unchanged value.) -/
theorem c9_config_not_mutated (env : Env S T O) (args : Args)
    (config0 config : Config)
    (happly : applyOverrides args config0 = .ok config) :
    ∀ e ∈ (main env args config0).2, ∀ c, e.configOf = some c →
      c = config := by
  have hPD : ∀ (e : Event S T O), e.isLoadObs = true ∨ e.isPlotDiag = true →
      ∀ c, e.configOf = some c → c = config := by
    intro e h c hc
    cases e <;> simp_all [Event.isLoadObs, Event.isPlotDiag, Event.configOf]
  have hcp : ∀ (trans : T), ∀ e ∈ (call_plotdiag env config trans).2,
      ∀ c, e.configOf = some c → c = config := by
    intro trans e he
    rcases call_plotdiag_events env config trans e he with ⟨h1, _⟩ | h1
    · exact hPD e (Or.inl h1)
    · exact hPD e (Or.inr h1)
  simp only [main, bind_eq_tbind, tlift, happly, tbind_mk_ok, List.nil_append]
  refine tbind_forall ?_ fun t => ?_
  · intro e he c hc
    simp only [callExt, List.mem_singleton] at he
    subst he
    exact (Option.some.inj hc).symm
  refine tbind_forall ?_ fun s => ?_
  · intro e he c hc
    simp only [callExt, List.mem_singleton] at he
    subst he
    exact (Option.some.inj hc).symm
  refine tbind_forall ?_ fun tau => ?_
  · intro e he c hc
    simp only [callExt, List.mem_singleton] at he
    subst he
    exact (Option.some.inj hc).symm
  refine tbind_forall ?_ fun v => ?_
  · intro e he c hc
    simp only [callExt, List.mem_singleton] at he
    subst he
    exact (Option.some.inj hc).symm
  refine tbind_forall ?_ fun t_on_v => ?_
  · intro e he c hc
    simp only [callExt, List.mem_singleton] at he
    subst he
    exact Option.noConfusion hc
  refine tbind_forall ?_ fun s_on_v => ?_
  · intro e he c hc
    simp only [callExt, List.mem_singleton] at he
    subst he
    exact Option.noConfusion hc
  refine tbind_forall ?_ fun trans => ?_
  · intro e he c hc
    simp only [callExt, List.mem_singleton] at he
    subst he
    exact (Option.some.inj hc).symm
  refine tbind_forall (by simp [tlift]) fun plot => ?_
  cases plot with
  | false =>
      rw [if_neg (by simp)]
      refine tbind_forall (by simp [pure_eq]) fun _ => ?_
      refine tbind_forall ?_ fun _ => ?_
      · intro e he c hc
        simp only [callExt, List.mem_singleton] at he
        subst he
        exact Option.noConfusion hc
      · intro e he c hc
        simp only [callExt, List.mem_singleton] at he
        subst he
        exact Option.noConfusion hc
  | true =>
      rw [if_pos rfl]
      refine tbind_forall (hcp trans) fun _ => ?_
      refine tbind_forall ?_ fun _ => ?_
      · intro e he c hc
        simp only [callExt, List.mem_singleton] at he
        subst he
        exact Option.noConfusion hc
      · intro e he c hc
        simp only [callExt, List.mem_singleton] at he
        subst he
        exact Option.noConfusion hc

/-- C9 witness: on a concrete run with overrides merged, the
configuration carried by the transport-computation event is the merged
one. -/
theorem c9_witness :
    Event.calcTransports (S := String) (T := String) (O := String)
        cfgA "meridional_velocity" "taux" "temperature@meridional_velocity"
        "salinity@meridional_velocity" ∈ (main okEnv argsA cfgA).2 ∧
    ∀ c, (Event.calcTransports (S := String) (T := String) (O := String)
        cfgA "meridional_velocity" "taux" "temperature@meridional_velocity"
        "salinity@meridional_velocity").configOf = some c → c = cfgA :=
  ⟨by decide,
    c9_config_not_mutated okEnv argsA cfgA cfgA rfl _ (by decide)⟩

/-- C8 witness: the heat-transport load in a sample run carries the
configured `monthly` time average. -/
theorem c8_witness :
    (Event.loadObs ObsKind.heat_transports "oht.nc" (some "monthly") ∈
      (call_plotdiag okEnv cfgA "trans").2) ∧
    some "monthly" = get_config_opt cfgA "observations" "time_avg" :=
  ⟨by decide,
    (c8_uniform_time_avg okEnv cfgA "trans").1
      (Event.loadObs ObsKind.heat_transports "oht.nc" (some "monthly"))
      (by decide) ObsKind.heat_transports "oht.nc" (some "monthly") rfl⟩

end RapidMoc
